import Mathlib

/-!
A shallow embedding, in Lean 4, of the core decoding routines of the
M3 Movie Player (GBA): the GBM video bitstream reader and block
primitives from `source/gbm_decoder.c`, and the GBS multi-mode ADPCM
audio decoder from `source/gbs_audio.c`.

Machine integers are modelled over `Nat`/`Int` with explicit
`% 2^w` reductions where C unsigned wraparound matters.  Byte buffers
are modelled as functions `Nat → Nat`; every byte fetch applies
`% 256`, which encodes the `u8` type of the C pointers.  C `int32_t`
quantities whose reachable ranges never overflow (ADPCM predictors and
step indices) are modelled as `Int`.
-/

namespace M3

/-- Pointwise update of a buffer modelled as a function. -/
def upd (f : Nat → Nat) (i v : Nat) : Nat → Nat :=
  fun j => if j = i then v else f j

/-- `read_u16_unaligned` from gbm_decoder.c: `ptr[0] | (ptr[1] << 8)`. -/
def read_u16_unaligned (f : Nat → Nat) (p : Nat) : Nat :=
  (f p % 256) ||| ((f (p + 1) % 256) <<< 8)

/-- `read_u32_unaligned` from gbm_decoder.c:
`ptr[0] | (ptr[1] << 8) | (ptr[2] << 16) | (ptr[3] << 24)`. -/
def read_u32_unaligned (f : Nat → Nat) (p : Nat) : Nat :=
  (f p % 256) ||| ((f (p + 1) % 256) <<< 8) |||
    ((f (p + 2) % 256) <<< 16) ||| ((f (p + 3) % 256) <<< 24)

/-!
### BitReader (gbm_decoder.c lines 54-98)

The decode context's bit-reader state is the `u32` field `ctx->state`
together with the stream cursor `ctx->flag_ptr`; the flag stream itself
is immutable.  We model the pair as `BitReader` over a byte function.
-/

/-- Bit-reader state: the 32-bit shift register `ctx->state` and the
byte position of `ctx->flag_ptr` within the stream. -/
structure BitReader where
  state : Nat
  pos : Nat
  deriving Repr, DecidableEq

/-- `next_bit` from gbm_decoder.c (lines 56-67), returning the bit and
the updated reader.  The C shifts are on `u32`, hence the `% 2^32`. -/
def next_bit (f : Nat → Nat) (r : BitReader) : Nat × BitReader :=
  if r.state = 2147483648 then
    let word := read_u32_unaligned f r.pos
    (word >>> 31, ⟨((word <<< 1) ||| 1) % 4294967296, r.pos + 4⟩)
  else
    (r.state >>> 31, ⟨(r.state <<< 1) % 4294967296, r.pos⟩)

/-- `next_2bits` from gbm_decoder.c (lines 70-98): fast path when the
sentinel sits in the low 30 bits, medium path when exactly one data bit
remains, slow path on an exhausted register. -/
def next_2bits (f : Nat → Nat) (r : BitReader) : Nat × BitReader :=
  if r.state &&& 0x3FFFFFFF ≠ 0 then
    (r.state >>> 30, ⟨(r.state <<< 2) % 4294967296, r.pos⟩)
  else if r.state &&& 0x40000000 ≠ 0 then
    let bit0 := r.state >>> 31
    let word := read_u32_unaligned f r.pos
    let bit1 := word >>> 31
    ((bit0 <<< 1) ||| bit1, ⟨((word <<< 1) ||| 1) % 4294967296, r.pos + 4⟩)
  else
    let word := read_u32_unaligned f r.pos
    (word >>> 30, ⟨((word <<< 2) ||| 2) % 4294967296, r.pos + 4⟩)

/-- Readers reachable from the initial state `ctx.state = 0x80000000`
(gbm_decode_frame line 775) by any interleaving of `next_bit` and
`next_2bits` calls. -/
inductive Reachable (f : Nat → Nat) : BitReader → Prop where
  | init (p : Nat) : Reachable f ⟨2147483648, p⟩
  | step_bit {r : BitReader} : Reachable f r → Reachable f (next_bit f r).2
  | step_2bits {r : BitReader} : Reachable f r → Reachable f (next_2bits f r).2

/-!
### GBM frame record parsing (gbm_decoder.c lines 762-804)

`gbm_decode_frame` parses the 6-byte frame record, derives the three
sub-stream ranges and the return value, then runs the 20x30 macroblock
loop.  The macroblock loop mutates only the destination pixel buffer;
it does not touch the quantities below (`next_offset` is computed at
line 767 before the loop and returned unchanged at line 803), so we
embed the record-parsing part as its own function.  Note the function
receives no buffer length and no version byte: `flag_bytes` is
`bit_enc ^ 0xD6AC` unconditionally (line 772). -/
structure GbmFrameSetup where
  frame_len : Nat
  bit_enc : Nat
  palette_bytes : Nat
  flag_bytes : Nat
  flag_start : Nat
  flag_end : Nat
  pal_start : Nat
  pal_end : Nat
  next_offset : Nat
  deriving Repr, DecidableEq

/-- The header-parsing prelude of `gbm_decode_frame` (lines 763-787).
`next_offset` is the value the C function returns. -/
def gbm_decode_frame_setup (data : Nat → Nat) (offset : Nat) : GbmFrameSetup :=
  let frame_len := read_u16_unaligned data offset
  let bit_enc := read_u16_unaligned data (offset + 2)
  let palette_bytes := read_u16_unaligned data (offset + 4)
  let next_offset := (offset + 2 + frame_len) % 4294967296
  let flag_bytes := bit_enc ^^^ 0xD6AC
  let flag_start := offset + 6
  let flag_end := flag_start + flag_bytes
  ⟨frame_len, bit_enc, palette_bytes, flag_bytes, flag_start, flag_end,
   flag_end, flag_end + palette_bytes, next_offset⟩

/-!
### Codebook (gbm_decoder.c lines 8-41)
-/

/-- The literal 256-entry `CODEBOOK_OFFSETS` table of signed 16-bit byte
displacements, transcribed from gbm_decoder.c. -/
def CODEBOOK_OFFSETS : List Int := [
  -3856, -3854, -3852, -3850, -3848, -3846, -3844, -3842, -3840, -3838, -3836, -3834, -3832, -3830, -3828, -3826,
  -3376, -3374, -3372, -3370, -3368, -3366, -3364, -3362, -3360, -3358, -3356, -3354, -3352, -3350, -3348, -3346,
  -2896, -2894, -2892, -2890, -2888, -2886, -2884, -2882, -2880, -2878, -2876, -2874, -2872, -2870, -2868, -2866,
  -2416, -2414, -2412, -2410, -2408, -2406, -2404, -2402, -2400, -2398, -2396, -2394, -2392, -2390, -2388, -2386,
  -1936, -1934, -1932, -1930, -1928, -1926, -1924, -1922, -1920, -1918, -1916, -1914, -1912, -1910, -1908, -1906,
  -1456, -1454, -1452, -1450, -1448, -1446, -1444, -1442, -1440, -1438, -1436, -1434, -1432, -1430, -1428, -1426,
  -976, -974, -972, -970, -968, -966, -964, -962, -960, -958, -956, -954, -952, -950, -948, -946,
  -496, -494, -492, -490, -488, -486, -484, -482, -480, -478, -476, -474, -472, -470, -468, -466,
  -16, -14, -12, -10, -8, -6, -4, -2, 0, 2, 4, 6, 8, 10, 12, 14,
  464, 466, 468, 470, 472, 474, 476, 478, 480, 482, 484, 486, 488, 490, 492, 494,
  944, 946, 948, 950, 952, 954, 956, 958, 960, 962, 964, 966, 968, 970, 972, 974,
  1424, 1426, 1428, 1430, 1432, 1434, 1436, 1438, 1440, 1442, 1444, 1446, 1448, 1450, 1452, 1454,
  1904, 1906, 1908, 1910, 1912, 1914, 1916, 1918, 1920, 1922, 1924, 1926, 1928, 1930, 1932, 1934,
  2384, 2386, 2388, 2390, 2392, 2394, 2396, 2398, 2400, 2402, 2404, 2406, 2408, 2410, 2412, 2414,
  2864, 2866, 2868, 2870, 2872, 2874, 2876, 2878, 2880, 2882, 2884, 2886, 2888, 2890, 2892, 2894,
  3344, 3346, 3348, 3350, 3352, 3354, 3356, 3358, 3360, 3362, 3364, 3366, 3368, 3370, 3372, 3374]

/-!
### Block operations (gbm_decoder.c lines 150-202)

Pixel buffers are `Nat → Nat` maps from halfword index to `u16` value
(every read applies `% 2^16`).  `dst_off`/`ref_off` are byte offsets as
in the C (`>> 1` converts to halfword index); the row stride is 240
halfwords (`ROW_STRIDE`).  The C reads through `ctx->ref` and writes
through `ctx->dst`; we model them as two separate buffers (the
behaviour when the caller aliases them is not needed by the claims). -/

/-- `delta_u32_block` (lines 150-168): packed 32-bit add of the delta to
two pixels at a time, masking bit 15/31 of the source pair first. -/
def delta_u32_block (dst ref : Nat → Nat) (dst_off ref_off rows words : Nat)
    (delta : Int) : Nat → Nat :=
  let d16 : Nat := (delta % 65536).toNat
  let delta32 : Nat := d16 ||| (d16 <<< 16)
  (List.range rows).foldl (fun dr r =>
    (List.range words).foldl (fun dw i =>
      let di := dst_off / 2 + r * 240 + 2 * i
      let si := ref_off / 2 + r * 240 + 2 * i
      let val := (ref si % 65536) ||| ((ref (si + 1) % 65536) <<< 16)
      let v := ((val &&& 0x7FFF7FFF) + delta32) % 4294967296
      upd (upd dw di (v % 65536)) (di + 1) (v / 65536 % 65536)) dr) dst

/-- `delta_u16_block` (lines 192-202): scalar per-pixel variant,
`d[i] = s[i] + delta` in `u16` arithmetic (no masking). -/
def delta_u16_block (dst ref : Nat → Nat) (dst_off ref_off rows halfwords : Nat)
    (delta : Int) : Nat → Nat :=
  (List.range rows).foldl (fun dr r =>
    (List.range halfwords).foldl (fun dw i =>
      let di := dst_off / 2 + r * 240 + i
      let si := ref_off / 2 + r * 240 + i
      upd dw di ((((ref si % 65536 : Nat) : Int) + delta) % 65536).toNat) dr) dst

/-!
### GBS ADPCM tables (gbs_audio.c lines 61-315)
-/

/-- Standard IMA ADPCM step table, 89 entries (gbs_audio.c lines 61-71). -/
def ima_step_table : List Int := [
  7, 8, 9, 10, 11, 12, 13, 14, 16, 17,
  19, 21, 23, 25, 28, 31, 34, 37, 41, 45,
  50, 55, 60, 66, 73, 80, 88, 97, 107, 118,
  130, 143, 157, 173, 190, 209, 230, 253, 279, 307,
  337, 371, 408, 449, 494, 544, 598, 658, 724, 796,
  876, 963, 1060, 1166, 1282, 1411, 1552, 1707, 1878, 2066,
  2272, 2499, 2749, 3024, 3327, 3660, 4026, 4428, 4871, 5358,
  5894, 6484, 7132, 7845, 8630, 9493, 10442, 11487, 12635, 13899,
  15289, 16818, 18500, 20350, 22385, 24623, 27086, 29794, 32767]

/-- 4-bit IMA index adjustment table (gbs_audio.c lines 74-77). -/
def ima_index_table : List Int := [
  -1, -1, -1, -1, 2, 4, 6, 8, -1, -1, -1, -1, 2, 4, 6, 8]

/-- 3-bit index adjustment table (gbs_audio.c lines 80-82). -/
def adpcm3_index_table : List Int := [
  -1, -1, 2, 6, -1, -1, 2, 6]

/-!
The literal `ima_diff_table` (gbs_audio.c lines 87-266): 89 step levels
x 16 nibbles, transcribed verbatim row by row (one `List Int` per
`step_index`) and flattened, which keeps elaboration linear. -/

def ima_diff_row_0 : List Int := [0, 1, 3, 4, 7, 8, 10, 11, 0, -1, -3, -4, -7, -8, -10, -11]  -- step 7
def ima_diff_row_1 : List Int := [1, 2, 4, 5, 8, 9, 11, 12, -1, -2, -4, -5, -8, -9, -11, -12]  -- step 8
def ima_diff_row_2 : List Int := [1, 2, 4, 5, 9, 10, 12, 13, -1, -2, -4, -5, -9, -10, -12, -13]  -- step 9
def ima_diff_row_3 : List Int := [1, 2, 5, 6, 10, 11, 14, 15, -1, -2, -5, -6, -10, -11, -14, -15]  -- step 10
def ima_diff_row_4 : List Int := [1, 3, 5, 7, 11, 13, 15, 17, -1, -3, -5, -7, -11, -13, -15, -17]  -- step 11
def ima_diff_row_5 : List Int := [1, 3, 6, 8, 12, 14, 17, 19, -1, -3, -6, -8, -12, -14, -17, -19]  -- step 12
def ima_diff_row_6 : List Int := [1, 3, 6, 8, 13, 15, 18, 20, -1, -3, -6, -8, -13, -15, -18, -20]  -- step 13
def ima_diff_row_7 : List Int := [1, 4, 7, 9, 14, 17, 20, 22, -1, -4, -7, -9, -14, -17, -20, -22]  -- step 14
def ima_diff_row_8 : List Int := [2, 4, 8, 10, 16, 18, 22, 24, -2, -4, -8, -10, -16, -18, -22, -24]  -- step 16
def ima_diff_row_9 : List Int := [2, 4, 8, 10, 17, 19, 23, 25, -2, -4, -8, -10, -17, -19, -23, -25]  -- step 17
def ima_diff_row_10 : List Int := [2, 5, 9, 12, 19, 22, 26, 29, -2, -5, -9, -12, -19, -22, -26, -29]  -- step 19
def ima_diff_row_11 : List Int := [2, 5, 10, 13, 21, 24, 29, 32, -2, -5, -10, -13, -21, -24, -29, -32]  -- step 21
def ima_diff_row_12 : List Int := [2, 6, 11, 14, 23, 27, 32, 35, -2, -6, -11, -14, -23, -27, -32, -35]  -- step 23
def ima_diff_row_13 : List Int := [3, 6, 12, 15, 25, 28, 34, 37, -3, -6, -12, -15, -25, -28, -34, -37]  -- step 25
def ima_diff_row_14 : List Int := [3, 7, 14, 17, 28, 32, 39, 42, -3, -7, -14, -17, -28, -32, -39, -42]  -- step 28
def ima_diff_row_15 : List Int := [3, 8, 15, 19, 31, 36, 43, 47, -3, -8, -15, -19, -31, -36, -43, -47]  -- step 31
def ima_diff_row_16 : List Int := [4, 8, 17, 21, 34, 38, 47, 51, -4, -8, -17, -21, -34, -38, -47, -51]  -- step 34
def ima_diff_row_17 : List Int := [4, 9, 18, 23, 37, 42, 51, 56, -4, -9, -18, -23, -37, -42, -51, -56]  -- step 37
def ima_diff_row_18 : List Int := [5, 10, 20, 25, 41, 46, 56, 61, -5, -10, -20, -25, -41, -46, -56, -61]  -- step 41
def ima_diff_row_19 : List Int := [5, 11, 22, 28, 45, 51, 62, 68, -5, -11, -22, -28, -45, -51, -62, -68]  -- step 45
def ima_diff_row_20 : List Int := [6, 12, 25, 31, 50, 56, 69, 75, -6, -12, -25, -31, -50, -56, -69, -75]  -- step 50
def ima_diff_row_21 : List Int := [6, 14, 27, 34, 55, 62, 76, 83, -6, -14, -27, -34, -55, -62, -76, -83]  -- step 55
def ima_diff_row_22 : List Int := [7, 15, 30, 37, 60, 67, 82, 90, -7, -15, -30, -37, -60, -67, -82, -90]  -- step 60
def ima_diff_row_23 : List Int := [8, 16, 33, 41, 66, 74, 91, 99, -8, -16, -33, -41, -66, -74, -91, -99]  -- step 66
def ima_diff_row_24 : List Int := [9, 18, 36, 45, 73, 82, 100, 109, -9, -18, -36, -45, -73, -82, -100, -109]  -- step 73
def ima_diff_row_25 : List Int := [10, 20, 40, 50, 80, 90, 110, 120, -10, -20, -40, -50, -80, -90, -110, -120]  -- step 80
def ima_diff_row_26 : List Int := [11, 22, 44, 55, 88, 99, 121, 132, -11, -22, -44, -55, -88, -99, -121, -132]  -- step 88
def ima_diff_row_27 : List Int := [12, 24, 48, 60, 97, 109, 133, 145, -12, -24, -48, -60, -97, -109, -133, -145]  -- step 97
def ima_diff_row_28 : List Int := [13, 27, 53, 67, 107, 121, 147, 161, -13, -27, -53, -67, -107, -121, -147, -161]  -- step 107
def ima_diff_row_29 : List Int := [14, 29, 59, 73, 118, 132, 162, 177, -14, -29, -59, -73, -118, -132, -162, -177]  -- step 118
def ima_diff_row_30 : List Int := [16, 32, 65, 81, 130, 146, 179, 195, -16, -32, -65, -81, -130, -146, -179, -195]  -- step 130
def ima_diff_row_31 : List Int := [17, 36, 71, 89, 143, 161, 196, 214, -17, -36, -71, -89, -143, -161, -196, -214]  -- step 143
def ima_diff_row_32 : List Int := [19, 39, 78, 98, 157, 176, 216, 235, -19, -39, -78, -98, -157, -176, -216, -235]  -- step 157
def ima_diff_row_33 : List Int := [21, 43, 86, 108, 173, 195, 238, 260, -21, -43, -86, -108, -173, -195, -238, -260]  -- step 173
def ima_diff_row_34 : List Int := [23, 48, 95, 119, 190, 214, 261, 285, -23, -48, -95, -119, -190, -214, -261, -285]  -- step 190
def ima_diff_row_35 : List Int := [26, 52, 104, 130, 209, 235, 287, 313, -26, -52, -104, -130, -209, -235, -287, -313]  -- step 209
def ima_diff_row_36 : List Int := [28, 58, 115, 144, 230, 259, 316, 345, -28, -58, -115, -144, -230, -259, -316, -345]  -- step 230
def ima_diff_row_37 : List Int := [31, 63, 126, 158, 253, 285, 348, 380, -31, -63, -126, -158, -253, -285, -348, -380]  -- step 253
def ima_diff_row_38 : List Int := [34, 70, 139, 174, 279, 314, 383, 418, -34, -70, -139, -174, -279, -314, -383, -418]  -- step 279
def ima_diff_row_39 : List Int := [38, 77, 153, 191, 307, 345, 421, 460, -38, -77, -153, -191, -307, -345, -421, -460]  -- step 307
def ima_diff_row_40 : List Int := [42, 84, 168, 210, 337, 379, 463, 505, -42, -84, -168, -210, -337, -379, -463, -505]  -- step 337
def ima_diff_row_41 : List Int := [46, 93, 185, 232, 371, 418, 510, 557, -46, -93, -185, -232, -371, -418, -510, -557]  -- step 371
def ima_diff_row_42 : List Int := [51, 102, 204, 255, 408, 459, 561, 612, -51, -102, -204, -255, -408, -459, -561, -612]  -- step 408
def ima_diff_row_43 : List Int := [56, 112, 224, 280, 449, 505, 617, 673, -56, -112, -224, -280, -449, -505, -617, -673]  -- step 449
def ima_diff_row_44 : List Int := [61, 124, 247, 309, 494, 556, 679, 741, -61, -124, -247, -309, -494, -556, -679, -741]  -- step 494
def ima_diff_row_45 : List Int := [68, 136, 272, 340, 544, 612, 748, 816, -68, -136, -272, -340, -544, -612, -748, -816]  -- step 544
def ima_diff_row_46 : List Int := [74, 150, 299, 374, 598, 673, 822, 897, -74, -150, -299, -374, -598, -673, -822, -897]  -- step 598
def ima_diff_row_47 : List Int := [82, 164, 329, 411, 658, 740, 905, 987, -82, -164, -329, -411, -658, -740, -905, -987]  -- step 658
def ima_diff_row_48 : List Int := [90, 181, 362, 452, 724, 814, 996, 1086, -90, -181, -362, -452, -724, -814, -996, -1086]  -- step 724
def ima_diff_row_49 : List Int := [99, 199, 398, 497, 796, 895, 1094, 1194, -99, -199, -398, -497, -796, -895, -1094, -1194]  -- step 796
def ima_diff_row_50 : List Int := [109, 219, 438, 547, 876, 985, 1204, 1314, -109, -219, -438, -547, -876, -985, -1204, -1314]  -- step 876
def ima_diff_row_51 : List Int := [120, 240, 481, 601, 963, 1083, 1324, 1444, -120, -240, -481, -601, -963, -1083, -1324, -1444]  -- step 963
def ima_diff_row_52 : List Int := [132, 265, 530, 662, 1060, 1192, 1457, 1590, -132, -265, -530, -662, -1060, -1192, -1457, -1590]  -- step 1060
def ima_diff_row_53 : List Int := [145, 291, 583, 728, 1166, 1311, 1603, 1749, -145, -291, -583, -728, -1166, -1311, -1603, -1749]  -- step 1166
def ima_diff_row_54 : List Int := [160, 320, 641, 801, 1282, 1442, 1763, 1923, -160, -320, -641, -801, -1282, -1442, -1763, -1923]  -- step 1282
def ima_diff_row_55 : List Int := [176, 352, 705, 881, 1411, 1587, 1940, 2116, -176, -352, -705, -881, -1411, -1587, -1940, -2116]  -- step 1411
def ima_diff_row_56 : List Int := [194, 388, 776, 970, 1552, 1746, 2134, 2328, -194, -388, -776, -970, -1552, -1746, -2134, -2328]  -- step 1552
def ima_diff_row_57 : List Int := [213, 427, 853, 1067, 1707, 1920, 2346, 2560, -213, -427, -853, -1067, -1707, -1920, -2346, -2560]  -- step 1707
def ima_diff_row_58 : List Int := [234, 469, 939, 1173, 1878, 2112, 2583, 2817, -234, -469, -939, -1173, -1878, -2112, -2583, -2817]  -- step 1878
def ima_diff_row_59 : List Int := [258, 516, 1033, 1291, 2066, 2324, 2841, 3099, -258, -516, -1033, -1291, -2066, -2324, -2841, -3099]  -- step 2066
def ima_diff_row_60 : List Int := [284, 568, 1136, 1420, 2272, 2556, 3124, 3408, -284, -568, -1136, -1420, -2272, -2556, -3124, -3408]  -- step 2272
def ima_diff_row_61 : List Int := [312, 625, 1249, 1562, 2499, 2811, 3436, 3748, -312, -625, -1249, -1562, -2499, -2811, -3436, -3748]  -- step 2499
def ima_diff_row_62 : List Int := [343, 687, 1374, 1718, 2749, 3093, 3780, 4123, -343, -687, -1374, -1718, -2749, -3093, -3780, -4123]  -- step 2749
def ima_diff_row_63 : List Int := [378, 756, 1512, 1890, 3024, 3402, 4158, 4536, -378, -756, -1512, -1890, -3024, -3402, -4158, -4536]  -- step 3024
def ima_diff_row_64 : List Int := [415, 832, 1663, 2079, 3327, 3743, 4575, 4990, -415, -832, -1663, -2079, -3327, -3743, -4575, -4990]  -- step 3327
def ima_diff_row_65 : List Int := [457, 915, 1830, 2287, 3660, 4117, 5032, 5490, -457, -915, -1830, -2287, -3660, -4117, -5032, -5490]  -- step 3660
def ima_diff_row_66 : List Int := [503, 1006, 2013, 2516, 4026, 4529, 5536, 6039, -503, -1006, -2013, -2516, -4026, -4529, -5536, -6039]  -- step 4026
def ima_diff_row_67 : List Int := [553, 1107, 2214, 2767, 4428, 4981, 5535, 6642, -553, -1107, -2214, -2767, -4428, -4981, -5535, -6642]  -- step 4428
def ima_diff_row_68 : List Int := [608, 1218, 2435, 3044, 4871, 5480, 6088, 7306, -608, -1218, -2435, -3044, -4871, -5480, -6088, -7306]  -- step 4871
def ima_diff_row_69 : List Int := [669, 1339, 2679, 3348, 5358, 6027, 6697, 8037, -669, -1339, -2679, -3348, -5358, -6027, -6697, -8037]  -- step 5358
def ima_diff_row_70 : List Int := [736, 1474, 2947, 3683, 5894, 6631, 7367, 8841, -736, -1474, -2947, -3683, -5894, -6631, -7367, -8841]  -- step 5894
def ima_diff_row_71 : List Int := [810, 1621, 3242, 4052, 6484, 7294, 8105, 9726, -810, -1621, -3242, -4052, -6484, -7294, -8105, -9726]  -- step 6484
def ima_diff_row_72 : List Int := [891, 1783, 3566, 4457, 7132, 8023, 8915, 10698, -891, -1783, -3566, -4457, -7132, -8023, -8915, -10698]  -- step 7132
def ima_diff_row_73 : List Int := [980, 1961, 3922, 4903, 7845, 8826, 9807, 11767, -980, -1961, -3922, -4903, -7845, -8826, -9807, -11767]  -- step 7845
def ima_diff_row_74 : List Int := [1078, 2158, 4315, 5394, 8630, 9709, 10787, 12945, -1078, -2158, -4315, -5394, -8630, -9709, -10787, -12945]  -- step 8630
def ima_diff_row_75 : List Int := [1186, 2373, 4746, 5933, 9493, 10680, 11866, 14239, -1186, -2373, -4746, -5933, -9493, -10680, -11866, -14239]  -- step 9493
def ima_diff_row_76 : List Int := [1305, 2610, 5221, 6526, 10442, 11747, 13052, 15663, -1305, -2610, -5221, -6526, -10442, -11747, -13052, -15663]  -- step 10442
def ima_diff_row_77 : List Int := [1435, 2872, 5743, 7179, 11487, 12922, 14358, 17230, -1435, -2872, -5743, -7179, -11487, -12922, -14358, -17230]  -- step 11487
def ima_diff_row_78 : List Int := [1579, 3159, 6317, 7896, 12635, 14214, 15793, 18952, -1579, -3159, -6317, -7896, -12635, -14214, -15793, -18952]  -- step 12635
def ima_diff_row_79 : List Int := [1737, 3475, 6949, 8686, 13899, 15636, 17373, 20848, -1737, -3475, -6949, -8686, -13899, -15636, -17373, -20848]  -- step 13899
def ima_diff_row_80 : List Int := [1911, 3822, 7644, 9555, 15289, 17200, 19111, 22933, -1911, -3822, -7644, -9555, -15289, -17200, -19111, -22933]  -- step 15289
def ima_diff_row_81 : List Int := [2102, 4204, 8409, 10511, 16818, 18920, 21022, 25227, -2102, -4204, -8409, -10511, -16818, -18920, -21022, -25227]  -- step 16818
def ima_diff_row_82 : List Int := [2312, 4625, 9250, 11562, 18500, 20812, 23124, 27750, -2312, -4625, -9250, -11562, -18500, -20812, -23124, -27750]  -- step 18500
def ima_diff_row_83 : List Int := [2543, 5087, 10175, 12718, 20350, 22893, 25437, 30525, -2543, -5087, -10175, -12718, -20350, -22893, -25437, -30525]  -- step 20350
def ima_diff_row_84 : List Int := [2798, 5596, 11192, 13990, 22385, 25183, 27981, 32767, -2798, -5596, -11192, -13990, -22385, -25183, -27981, -32767]  -- step 22385
def ima_diff_row_85 : List Int := [3077, 6156, 12311, 15389, 24623, 27701, 30778, 32767, -3077, -6156, -12311, -15389, -24623, -27701, -30778, -32767]  -- step 24623
def ima_diff_row_86 : List Int := [3385, 6771, 13543, 16928, 27086, 30471, 32767, 32767, -3385, -6771, -13543, -16928, -27086, -30471, -32767, -32767]  -- step 27086
def ima_diff_row_87 : List Int := [3724, 7449, 14897, 18621, 29794, 32767, 32767, 32767, -3724, -7449, -14897, -18621, -29794, -32767, -32767, -32767]  -- step 29794
def ima_diff_row_88 : List Int := [4095, 8191, 16383, 20479, 32767, 32767, 32767, 32767, -4095, -8191, -16383, -20479, -32767, -32767, -32767, -32767]  -- step 32767

/-- The flat 1424-entry `ima_diff_table`, indexed `step_index*16 + nibble`. -/
def ima_diff_table : List Int := List.flatten [ima_diff_row_0,
  ima_diff_row_1,
  ima_diff_row_2,
  ima_diff_row_3,
  ima_diff_row_4,
  ima_diff_row_5,
  ima_diff_row_6,
  ima_diff_row_7,
  ima_diff_row_8,
  ima_diff_row_9,
  ima_diff_row_10,
  ima_diff_row_11,
  ima_diff_row_12,
  ima_diff_row_13,
  ima_diff_row_14,
  ima_diff_row_15,
  ima_diff_row_16,
  ima_diff_row_17,
  ima_diff_row_18,
  ima_diff_row_19,
  ima_diff_row_20,
  ima_diff_row_21,
  ima_diff_row_22,
  ima_diff_row_23,
  ima_diff_row_24,
  ima_diff_row_25,
  ima_diff_row_26,
  ima_diff_row_27,
  ima_diff_row_28,
  ima_diff_row_29,
  ima_diff_row_30,
  ima_diff_row_31,
  ima_diff_row_32,
  ima_diff_row_33,
  ima_diff_row_34,
  ima_diff_row_35,
  ima_diff_row_36,
  ima_diff_row_37,
  ima_diff_row_38,
  ima_diff_row_39,
  ima_diff_row_40,
  ima_diff_row_41,
  ima_diff_row_42,
  ima_diff_row_43,
  ima_diff_row_44,
  ima_diff_row_45,
  ima_diff_row_46,
  ima_diff_row_47,
  ima_diff_row_48,
  ima_diff_row_49,
  ima_diff_row_50,
  ima_diff_row_51,
  ima_diff_row_52,
  ima_diff_row_53,
  ima_diff_row_54,
  ima_diff_row_55,
  ima_diff_row_56,
  ima_diff_row_57,
  ima_diff_row_58,
  ima_diff_row_59,
  ima_diff_row_60,
  ima_diff_row_61,
  ima_diff_row_62,
  ima_diff_row_63,
  ima_diff_row_64,
  ima_diff_row_65,
  ima_diff_row_66,
  ima_diff_row_67,
  ima_diff_row_68,
  ima_diff_row_69,
  ima_diff_row_70,
  ima_diff_row_71,
  ima_diff_row_72,
  ima_diff_row_73,
  ima_diff_row_74,
  ima_diff_row_75,
  ima_diff_row_76,
  ima_diff_row_77,
  ima_diff_row_78,
  ima_diff_row_79,
  ima_diff_row_80,
  ima_diff_row_81,
  ima_diff_row_82,
  ima_diff_row_83,
  ima_diff_row_84,
  ima_diff_row_85,
  ima_diff_row_86,
  ima_diff_row_87,
  ima_diff_row_88]

/-- The literal `adpcm2_delta_table` (gbs_audio.c lines 270-315).  The C
array is declared with 356 entries but lists only 352 initializers; the
final four entries (indices 352-355) are zero-initialized per C
semantics, and index 352 is the saturation target of the 2-bit kernel.
-/
def adpcm2_delta_table : List Int := [
  3, 10, -3, -10, 4, 12, -4, -12,
  4, 13, -4, -13, 5, 15, -5, -15,
  5, 16, -5, -16, 6, 18, -6, -18,
  6, 19, -6, -19, 7, 21, -7, -21,
  8, 24, -8, -24, 8, 25, -8, -25,
  9, 28, -9, -28, 10, 31, -10, -31,
  11, 34, -11, -34, 12, 37, -12, -37,
  14, 42, -14, -42, 15, 46, -15, -46,
  17, 51, -17, -51, 18, 55, -18, -55,
  20, 61, -20, -61, 22, 67, -22, -67,
  25, 75, -25, -75, 27, 82, -27, -82,
  30, 90, -30, -90, 33, 99, -33, -99,
  36, 109, -36, -109, 40, 120, -40, -120,
  44, 132, -44, -132, 48, 145, -48, -145,
  53, 160, -53, -160, 59, 177, -59, -177,
  65, 195, -65, -195, 71, 214, -71, -214,
  78, 235, -78, -235, 86, 259, -86, -259,
  95, 285, -95, -285, 104, 313, -104, -313,
  115, 345, -115, -345, 126, 379, -126, -379,
  139, 418, -139, -418, 153, 460, -153, -460,
  168, 505, -168, -505, 185, 556, -185, -556,
  204, 612, -204, -612, 224, 673, -224, -673,
  247, 741, -247, -741, 272, 816, -272, -816,
  299, 897, -299, -897, 329, 987, -329, -987,
  362, 1086, -362, -1086, 398, 1194, -398, -1194,
  438, 1314, -438, -1314, 481, 1444, -481, -1444,
  530, 1590, -530, -1590, 583, 1749, -583, -1749,
  641, 1923, -641, -1923, 705, 2116, -705, -2116,
  776, 2328, -776, -2328, 853, 2560, -853, -2560,
  939, 2817, -939, -2817, 1033, 3099, -1033, -3099,
  1136, 3408, -1136, -3408, 1249, 3748, -1249, -3748,
  1374, 4123, -1374, -4123, 1512, 4536, -1512, -4536,
  1663, 4990, -1663, -4990, 1830, 5490, -1830, -5490,
  2013, 6039, -2013, -6039, 2214, 6642, -2214, -6642,
  2435, 7306, -2435, -7306, 2679, 8037, -2679, -8037,
  2947, 8841, -2947, -8841, 3242, 9726, -3242, -9726,
  3566, 10698, -3566, -10698, 3922, 11767, -3922, -11767,
  4315, 12945, -4315, -12945, 4746, 14239, -4746, -14239,
  5221, 15663, -5221, -15663, 5743, 17230, -5743, -17230,
  6317, 18952, -6317, -18952, 6949, 20848, -6949, -20848,
  7644, 22933, -7644, -22933, 8409, 25227, -8409, -25227,
  9250, 27750, -9250, -27750, 10175, 30525, -10175, -30525,
  11179, -31999, -11179, 31999, 12316, -28587, -12316, 28587,
  13543, -24907, -13543, 24907, 14897, -20845, -14897, 20845,
  0, 0, 0, 0]

/-!
### ADPCM kernels (gbs_audio.c lines 387-453)
-/

/-- Per-channel decoder state (`ChannelState`, gbs_audio.c lines
332-335): `int32_t predictor` and `int32_t step_index`, modelled as
`Int` (the reachable values never approach the `int32` bounds). -/
structure ChannelState where
  predictor : Int
  step_index : Int
  deriving Repr, DecidableEq

/-- `decode_ima_4bit` (gbs_audio.c lines 387-402): table-lookup 4-bit
IMA step.  The C indexes `ima_diff_table[(step_index << 4) + nibble]`
with a non-negative `step_index`; we use `toNat` for the index.  The
returned sample is `(int16_t)predictor`, which after the clamp is the
predictor itself. -/
def decode_ima_4bit (nibble : Nat) (ch : ChannelState) : Int × ChannelState :=
  let diff := ima_diff_table.getD (ch.step_index.toNat * 16 + nibble) 0
  let p1 := ch.predictor + diff
  let p2 := if p1 > 32767 then 32767 else if p1 < -32768 then -32768 else p1
  let s1 := ch.step_index + ima_index_table.getD nibble 0
  let s2 := if s1 < 0 then 0 else if s1 > 88 then 88 else s1
  (p2, ⟨p2, s2⟩)

/-- `decode_adpcm_3bit` (gbs_audio.c lines 405-429).  The C shifts
`step >> 2`, `step >> 1` act on the positive step values, so they equal
the integer divisions used here.  Emits `predictor - 0x8000`. -/
def decode_adpcm_3bit (code : Nat) (ch : ChannelState) : Int × ChannelState :=
  let step := ima_step_table.getD ch.step_index.toNat 0
  let diff0 := step / 4
  let diff1 := if code &&& 2 ≠ 0 then diff0 + step else diff0
  let diff := if code &&& 1 ≠ 0 then diff1 + step / 2 else diff1
  let p1 := if code &&& 4 ≠ 0 then ch.predictor - diff else ch.predictor + diff
  let p2 := if p1 < 0 then 0 else if p1 > 65535 then 65535 else p1
  let s1 := ch.step_index + adpcm3_index_table.getD (code &&& 7) 0
  let s2 := if s1 < 0 then 0 else if s1 > 88 then 88 else s1
  (p2 - 32768, ⟨p2, s2⟩)

/-- `decode_adpcm_2bit` (gbs_audio.c lines 432-453): dedicated delta
table indexed by `code + step_index` saturated at 352; the step index
moves by ±4 and is clamped to `[0, 0x160]`.  Emits
`predictor - 0x8000`. -/
def decode_adpcm_2bit (code : Nat) (ch : ChannelState) : Int × ChannelState :=
  let ti := (code : Int) + ch.step_index
  let ti2 := if ti > 352 then 352 else ti
  let delta := adpcm2_delta_table.getD ti2.toNat 0
  let p1 := ch.predictor + delta
  let p2 := if p1 < 0 then 0 else if p1 > 65535 then 65535 else p1
  let s2 :=
    if code &&& 1 ≠ 0 then
      let s := ch.step_index + 4
      if s > 352 then 352 else s
    else
      let s := ch.step_index - 4
      if s < 0 then 0 else s
  (p2 - 32768, ⟨p2, s2⟩)

/-- The signed diff the lookup table is supposed to contain at
`(step_index, nibble)` according to the 4.4.1 reference formula. -/
def ima_ref_diff (step_index nibble : Nat) : Int :=
  let step := ima_step_table.getD step_index 0
  let d0 := step / 8
  let d1 := if nibble &&& 4 ≠ 0 then d0 + step else d0
  let d2 := if nibble &&& 2 ≠ 0 then d1 + step / 2 else d1
  let d3 := if nibble &&& 1 ≠ 0 then d2 + step / 4 else d2
  if nibble &&& 8 ≠ 0 then -d3 else d3

/-- Modelled from the spec: the 4.4.1 reference formula for one 4-bit
IMA step (`diff = step/8 + (n&4 ? step : 0) + (n&2 ? step/2 : 0) +
(n&1 ? step/4 : 0)`, subtracted when `n&8`, with the documented
clamps).  This is the refinement reference that claim C5 compares the
lookup-table kernel against; it is deliberately written from the
spec's words, not from the source. -/
def decode_ima_4bit_ref (nibble : Nat) (ch : ChannelState) : Int × ChannelState :=
  let diff := ima_ref_diff ch.step_index.toNat nibble
  let p1 := ch.predictor + diff
  let p2 := if p1 > 32767 then 32767 else if p1 < -32768 then -32768 else p1
  let s1 := ch.step_index + ima_index_table.getD nibble 0
  let s2 := if s1 < 0 then 0 else if s1 > 88 then 88 else s1
  (p2, ⟨p2, s2⟩)

/-- Number of entries of a diff-table tail (starting at flat index `i`)
that equal the reference formula's diff at the corresponding
`(step_index, nibble) = (i / 16, i % 16)` position. -/
def count_agree : List Int → Nat → Nat
  | [], _ => 0
  | d :: rest, i =>
      (if d = ima_ref_diff (i / 16) (i % 16) then 1 else 0) + count_agree rest (i + 1)

/-!
### Block headers (gbs_audio.c lines 463-496)
-/

/-- GBS mode numbers (`GbsMode`, gbs_audio.h). -/
def GBS_MODE_STEREO_4BIT : Nat := 0
def GBS_MODE_MONO_3BIT : Nat := 1
def GBS_MODE_MONO_4BIT : Nat := 2
def GBS_MODE_MONO_2BIT : Nat := 3
def GBS_MODE_MONO_2BIT_SM : Nat := 4
def GBS_MODE_INVALID : Nat := 255

/-- `parse_block_header_mono` (gbs_audio.c lines 463-482), reading the
4-byte block header `{u16 predictor, u16 step_index}` little-endian.
The branch on `state.info.mode` is passed in as `mode`. -/
def parse_block_header_mono (block : Nat → Nat) (mode : Nat) : ChannelState :=
  let predictor := read_u16_unaligned block 0
  let step_idx := read_u16_unaligned block 2
  let pred : Int :=
    if mode = GBS_MODE_MONO_4BIT then (predictor : Int) - 32768 else (predictor : Int)
  let si : Int := (step_idx : Int)
  let si2 :=
    if mode = GBS_MODE_MONO_2BIT ∨ mode = GBS_MODE_MONO_2BIT_SM then
      if si > 352 then 352 else si
    else
      if si > 88 then 88 else si
  ⟨pred, si2⟩

/-- `parse_block_header_stereo` (gbs_audio.c lines 484-496): left
channel from bytes 0-3, right channel from bytes 4-7. -/
def parse_block_header_stereo (block : Nat → Nat) : ChannelState × ChannelState :=
  let pred_l := read_u16_unaligned block 0
  let step_l := read_u16_unaligned block 2
  let pred_r := read_u16_unaligned block 4
  let step_r := read_u16_unaligned block 6
  (⟨(pred_l : Int) - 32768, if (step_l : Int) > 88 then 88 else (step_l : Int)⟩,
   ⟨(pred_r : Int) - 32768, if (step_r : Int) > 88 then 88 else (step_r : Int)⟩)
/-!
### GBS decoder state (gbs_audio.c lines 338-375, 802-914, 1097-1186)

The C keeps a process-wide `state` record.  We model the fields that
the claims exercise: mode/format configuration, block-walk cursor,
sample counters and the minute-sync bookkeeping.  Omitted fields are
the raw data pointer (`gbs_data`, `current_block_ptr` — positions are
tracked by `block_index`/`byte_in_block`), the per-channel
`ChannelState` (re-parsed from the block header on every
reposition and never read by the minute/progress accessors), the
small-sample carry buffers' contents, and the hardware/playback flags.
-/
structure GbsState where
  mode : Nat
  sample_rate : Nat
  channels : Nat
  block_size : Nat
  block_header_size : Nat
  total_blocks : Nat
  total_samples : Nat
  samples_decoded : Nat
  block_index : Nat
  byte_in_block : Nat
  samples_buffered : Nat
  have_high_nibble : Bool
  is_finished : Bool
  samples_per_minute : Nat
  next_minute_sample : Nat
  current_audio_minute : Nat
  sync_minute : Int
  deriving Repr, DecidableEq

/-- `gbs_audio_init` (gbs_audio.c lines 802-914) on a byte buffer of
`gbs_size` bytes: header validation ("GBAL" magic, "MUSI" marker, mode
0-4), the per-mode configuration switch, and the block/sample totals.
Returns `none` exactly when the C returns `false`.  (The parse of the
first block header into channel state, and the hardware setup, affect
no modelled field.) -/
def gbs_audio_init (f : Nat → Nat) (gbs_size : Nat) : Option GbsState :=
  if gbs_size < 512 then none
  else if ¬(f 0 % 256 = 71 ∧ f 1 % 256 = 66 ∧ f 2 % 256 = 65 ∧ f 3 % 256 = 76) then
    none  -- memcmp(header->magic, "GBAL", 4)
  else if ¬(f 8 % 256 = 77 ∧ f 9 % 256 = 85 ∧ f 10 % 256 = 83 ∧ f 11 % 256 = 73) then
    none  -- memcmp(header->marker, "MUSI", 4)
  else
    let mode := f 16 % 256 ||| ((f 17 % 256) <<< 8) ||| ((f 18 % 256) <<< 16) |||
      ((f 19 % 256) <<< 24)
    if mode > 4 then none
    else
      let cfg : Nat × Nat × Nat × Nat :=  -- rate, channels, block_size, header_size
        if mode = GBS_MODE_STEREO_4BIT then (22050, 2, 0x400, 8)
        else if mode = GBS_MODE_MONO_3BIT then (11025, 1, 0x400, 4)
        else if mode = GBS_MODE_MONO_4BIT then (22050, 1, 0x200, 4)
        else if mode = GBS_MODE_MONO_2BIT then (22050, 1, 0x200, 4)
        else (11025, 1, 0x100, 4)  -- GBS_MODE_MONO_2BIT_SM
      let rate := cfg.1
      let channels := cfg.2.1
      let block_size := cfg.2.2.1
      let header_size := cfg.2.2.2
      let data_size := gbs_size - 512
      let total_blocks := data_size / block_size
      let data_per_block := block_size - header_size
      let samples_per_block :=
        if mode = GBS_MODE_STEREO_4BIT then data_per_block
        else if mode = GBS_MODE_MONO_3BIT then data_per_block / 3 * 8
        else if mode = GBS_MODE_MONO_4BIT then data_per_block * 2
        else data_per_block * 4
      let total_samples := total_blocks * samples_per_block
      some
        { mode := mode, sample_rate := rate, channels := channels,
          block_size := block_size, block_header_size := header_size,
          total_blocks := total_blocks, total_samples := total_samples,
          samples_decoded := 0, block_index := 0, byte_in_block := 0,
          samples_buffered := 0, have_high_nibble := false,
          is_finished := total_blocks = 0,
          samples_per_minute := rate * 60, next_minute_sample := rate * 60,
          current_audio_minute := 0, sync_minute := -1 }

/-- The `samples_per_block` switch inside `gbs_audio_seek_minute`
(gbs_audio.c lines 1113-1133); its `default` arm yields 1. -/
def seek_samples_per_block (st : GbsState) : Nat :=
  let data_per_block := st.block_size - st.block_header_size
  if st.mode = GBS_MODE_STEREO_4BIT then data_per_block
  else if st.mode = GBS_MODE_MONO_3BIT then data_per_block / 3 * 8
  else if st.mode = GBS_MODE_MONO_4BIT then data_per_block * 2
  else if st.mode = GBS_MODE_MONO_2BIT ∨ st.mode = GBS_MODE_MONO_2BIT_SM then
    data_per_block * 4
  else 1

/-- `gbs_audio_seek_minute` (gbs_audio.c lines 1097-1168): the decoder
state reposition.  A seek whose target sample is at or past
`total_samples` wraps to the beginning (`target_sample = 0`,
`minute = 0`).  All multiplications are `u32`, hence the `% 2^32`.
The trailing `gbs_audio_start()` call (hardware playback setup plus
pre-decoding of the two PCM buffers) is not modelled; the state below
is the state the C leaves immediately after the reposition, before
playback resumes. -/
def gbs_audio_seek_minute (minute : Nat) (st : GbsState) : GbsState :=
  if st.mode = GBS_MODE_INVALID then st
  else
    let samples_per_minute := st.sample_rate * 60
    let target_sample := minute * samples_per_minute % 4294967296
    let wrapped := target_sample ≥ st.total_samples
    let target_sample := if wrapped then 0 else target_sample
    let minute := if wrapped then 0 else minute
    let spb := seek_samples_per_block st
    let target_block := target_sample / spb
    let target_block := if target_block ≥ st.total_blocks then 0 else target_block
    { st with
      block_index := target_block,
      byte_in_block := 0,
      samples_decoded := target_block * spb % 4294967296,
      is_finished := false,
      samples_buffered := 0,
      have_high_nibble := false,
      next_minute_sample := (minute + 1) * st.samples_per_minute % 4294967296,
      current_audio_minute := minute,
      sync_minute := -1 }

/-- `gbs_audio_get_current_minute` (gbs_audio.c lines 1170-1173). -/
def gbs_audio_get_current_minute (st : GbsState) : Nat :=
  if st.sample_rate = 0 then 0
  else st.samples_decoded / (st.sample_rate * 60)

/-- `gbs_audio_get_total_minutes` (gbs_audio.c lines 1175-1178). -/
def gbs_audio_get_total_minutes (st : GbsState) : Nat :=
  if st.sample_rate = 0 then 0
  else (st.total_samples + st.sample_rate * 60 - 1) / (st.sample_rate * 60)

/-- `gbs_audio_get_progress` (gbs_audio.c lines 1082-1085): guarded
percentage; the multiplication is `u32`. -/
def gbs_audio_get_progress (st : GbsState) : Nat :=
  if st.total_samples = 0 then 0
  else st.samples_decoded * 100 % 4294967296 / st.total_samples
/-!
### Concrete inputs used by the evaluation theorems
-/

/-- A minimal well-formed GBS byte image: magic "GBAL", marker "MUSI",
and the given mode in the `u32` at offset 16; all other bytes zero. -/
def gbs_file_with_mode (mode : Nat) : Nat → Nat := fun i =>
  if i = 0 then 71 else if i = 1 then 66
  else if i = 2 then 65 else if i = 3 then 76
  else if i = 8 then 77 else if i = 9 then 85
  else if i = 10 then 83 else if i = 11 then 73
  else if i = 16 then mode else 0

/-- An initialized mode-2 (mono 4-bit IMA) decoder state with 2000
blocks: `samples_per_block = (512-4)*2 = 1016`,
`total_samples = 2032000`, which spans two minutes at 22050 Hz. -/
def ex_mode2_state : GbsState :=
  { mode := 2, sample_rate := 22050, channels := 1,
    block_size := 512, block_header_size := 4,
    total_blocks := 2000, total_samples := 2032000,
    samples_decoded := 0, block_index := 0, byte_in_block := 0,
    samples_buffered := 0, have_high_nibble := false, is_finished := false,
    samples_per_minute := 1323000, next_minute_sample := 1323000,
    current_audio_minute := 0, sync_minute := -1 }

/-- A decoder state with the given sample counters (all other fields as
for a fresh mode-2 decoder), for exercising the progress accessor. -/
def ex_counters (samples_decoded total_samples : Nat) : GbsState :=
  { ex_mode2_state with
    samples_decoded := samples_decoded, total_samples := total_samples }
/-!
## Theorems
-/

/-- C1 (code_bug evaluation): `gbm_decode_frame` deobfuscates the flag
byte count with the fixed key 0xD6AC regardless of the header version
(it receives no version input at all; `gbm_set_version` from
gbm_decoder.h is never defined).  On a frame record with
`bit_enc = 0`, the flag byte count used is 0xD6AC, which differs from
`0 XOR key(0x06) = 0xD669` and from `0 XOR key(0x04) = 0`. -/
theorem c1_flag_key_fixed :
    (gbm_decode_frame_setup (fun _ => 0) 0).flag_bytes = 0xD6AC ∧
    (0 : Nat) ^^^ 0xD669 ≠ 0xD6AC ∧ (0 : Nat) ^^^ 0x0000 ≠ 0xD6AC := by
  decide

/-- C2 (code_bug evaluation): on source pixels 5, 5 (bit 15 clear) and
displacement -1, the packed routine `delta_u32_block` writes 4 to the
even pixel but 5 to the odd pixel — the carry out of the even pixel's
16-bit sum spills into the odd pixel — while the scalar
`delta_u16_block` writes 4 to both, matching the claimed formula
`((s &&& 0x7FFF) + d) &&& 0xFFFF = 4`. -/
theorem c2_packed_carry_leaks :
    delta_u32_block (fun _ => 0) (fun _ => 5) 0 0 1 1 (-1) 0 = 4 ∧
    delta_u32_block (fun _ => 0) (fun _ => 5) 0 0 1 1 (-1) 1 = 5 ∧
    delta_u16_block (fun _ => 0) (fun _ => 5) 0 0 1 2 (-1) 0 = 4 ∧
    delta_u16_block (fun _ => 0) (fun _ => 5) 0 0 1 2 (-1) 1 = 4 ∧
    ((((5 &&& 0x7FFF : Nat) : Int) + (-1)) % 65536).toNat = 4 := by
  decide

/-- C4 (code_bug evaluation): `gbs_audio_init` accepts a mode-4 GBS
file but configures it at 11025 Hz (contradicting the 22050 Hz in the
claim, the spec's mode table, and the comment in gbs_audio.h), with
the other mode-4 parameters (1 channel, 256-byte blocks, 4-byte
headers) as claimed; a mode-0 file is configured exactly as the claim
states (22050 Hz, 2 channels, 1024-byte blocks, 8-byte headers). -/
theorem c4_mode4_rate :
    (gbs_audio_init (gbs_file_with_mode 4) 768).map
      (fun st => (st.sample_rate, st.channels, st.block_size, st.block_header_size))
      = some (11025, 1, 256, 4) ∧
    (gbs_audio_init (gbs_file_with_mode 0) 1536).map
      (fun st => (st.sample_rate, st.channels, st.block_size, st.block_header_size))
      = some (22050, 2, 1024, 8) ∧
    (11025 : Nat) ≠ 22050 := by
  decide

set_option maxRecDepth 4096 in
/-- C7: every entry of the literal codebook equals the row/column
displacement formula `(i/16 - 8) * 480 + (i mod 16 - 8) * 2`. -/
theorem c7_codebook_formula :
    ∀ i : Fin 256,
      CODEBOOK_OFFSETS.getD i.val 0 =
        ((i.val : Int) / 16 - 8) * 480 + ((i.val : Int) % 16 - 8) * 2 := by
  decide

/-- C9 (code_bug evaluation): on a buffer whose frame record at offset
0 claims `frame_len = 100` — more bytes than any short buffer holds —
`gbm_decode_frame` still returns `offset + 2 + frame_len = 102`, not
the zero next-offset documented in gbm_decoder.h and the spec.  (The
function is not given the buffer length, so it cannot detect
truncation.) -/
theorem c9_no_truncation_check :
    (gbm_decode_frame_setup (fun i => if i = 0 then 100 else 0) 0).next_offset = 102 ∧
    (102 : Nat) ≠ 0 := by
  decide

/-- C10: `gbs_audio_get_progress` never divides by zero: with
`total_samples = 0` it returns 0, and otherwise (whenever the `u32`
product does not wrap) it returns `samples_decoded * 100 /
total_samples`. -/
theorem c10_progress_guarded (st : GbsState) :
    (st.total_samples = 0 → gbs_audio_get_progress st = 0) ∧
    (st.total_samples ≠ 0 → st.samples_decoded * 100 < 4294967296 →
      gbs_audio_get_progress st = st.samples_decoded * 100 / st.total_samples) := by
  constructor
  · intro h
    simp [gbs_audio_get_progress, h]
  · intro h1 h2
    simp [gbs_audio_get_progress, h1, Nat.mod_eq_of_lt h2]

/-- Witness for C10 at concrete states: a zero-length file reports 0,
and 50 of 100 samples reports 50%. -/
theorem c10_progress_guarded_witness :
    gbs_audio_get_progress (ex_counters 0 0) = 0 ∧
    gbs_audio_get_progress (ex_counters 50 100) = 50 * 100 / 100 :=
  ⟨(c10_progress_guarded (ex_counters 0 0)).1 rfl,
   (c10_progress_guarded (ex_counters 50 100)).2 (by decide) (by decide)⟩

/-- C5 counterexample: at `step_index = 1`, nibble 1, the lookup-table
kernel adds diff 2 to the predictor whereas the 4.4.1 reference
formula adds `8/8 + 8/4 = 3`; decoding one sample from predictor 0
yields different states. -/
theorem c5_table_differs_from_formula :
    decode_ima_4bit 1 ⟨0, 1⟩ ≠ decode_ima_4bit_ref 1 ⟨0, 1⟩ ∧
    (decode_ima_4bit 1 ⟨0, 1⟩).2.predictor = 2 ∧
    (decode_ima_4bit_ref 1 ⟨0, 1⟩).2.predictor = 3 := by
  decide

/-- C8 counterexample: seeking past the end wraps to the beginning
instead of clamping to the last minute.  On a two-minute mode-2 file,
`seek_minute 5` followed by `get_current_minute` yields 0, not the
claimed `min 5 (total_minutes - 1) = 1`. -/
theorem c8_seek_wraps_not_clamps :
    gbs_audio_get_current_minute (gbs_audio_seek_minute 5 ex_mode2_state) = 0 ∧
    gbs_audio_get_total_minutes ex_mode2_state = 2 ∧
    gbs_audio_get_current_minute (gbs_audio_seek_minute 5 ex_mode2_state) ≠
      min 5 (gbs_audio_get_total_minutes ex_mode2_state - 1) := by
  decide

/-!
### Bit-reader lemmas and the C3 equivalence
-/

/-- Setting bit 0 of an even number adds 1. -/
theorem two_mul_or_one (w : Nat) : (2 * w) ||| 1 = 2 * w + 1 := by
  have hmod : ((2 * w) ||| 1) % 2 = 1 := by
    rw [Nat.or_mod_two_eq_one]
    right
    norm_num
  have hdiv : ((2 * w) ||| 1) / 2 = w := by
    rw [Nat.or_div_two]
    norm_num
  omega

/-- Setting bit 1 of a multiple of 4 adds 2. -/
theorem four_mul_or_two (w : Nat) : (4 * w) ||| 2 = 4 * w + 2 := by
  have hmod : ((4 * w) ||| 2) % 2 = 0 := by
    have h := Nat.or_mod_two_eq_one (a := 4 * w) (b := 2)
    omega
  have hdiv : ((4 * w) ||| 2) / 2 = 2 * w + 1 := by
    rw [Nat.or_div_two]
    have h4 : 4 * w / 2 = 2 * w := by omega
    have h2 : 2 / 2 = 1 := by norm_num
    rw [h4, h2, two_mul_or_one]
  omega

/-- Combining two single bits MSB-first. -/
theorem or_bits (a b : Nat) (ha : a < 2) (hb : b < 2) :
    (a <<< 1) ||| b = 2 * a + b := by
  interval_cases a <;> interval_cases b <;> decide

/-- The synthesized 32-bit load produces a value below `2^32`. -/
theorem read_u32_unaligned_lt (f : Nat → Nat) (p : Nat) :
    read_u32_unaligned f p < 4294967296 := by
  have e : (4294967296 : Nat) = 2 ^ 32 := by norm_num
  rw [read_u32_unaligned, e]
  apply Nat.or_lt_two_pow
  apply Nat.or_lt_two_pow
  apply Nat.or_lt_two_pow
  · have h := Nat.mod_lt (f p) (show (0:Nat) < 256 by norm_num)
    omega
  · rw [Nat.shiftLeft_eq]
    have h := Nat.mod_lt (f (p + 1)) (show (0:Nat) < 256 by norm_num)
    have e8 : (2:Nat) ^ 8 = 256 := by norm_num
    rw [e8]
    omega
  · rw [Nat.shiftLeft_eq]
    have h := Nat.mod_lt (f (p + 2)) (show (0:Nat) < 256 by norm_num)
    have e16 : (2:Nat) ^ 16 = 65536 := by norm_num
    rw [e16]
    omega
  · rw [Nat.shiftLeft_eq]
    have h := Nat.mod_lt (f (p + 3)) (show (0:Nat) < 256 by norm_num)
    have e24 : (2:Nat) ^ 24 = 16777216 := by norm_num
    rw [e24]
    omega

/-- The low-30-bit test in `next_2bits` is a mod-`2^30` test. -/
theorem state_mask_30 (s : Nat) : s &&& 0x3FFFFFFF = s % 1073741824 := by
  have h := Nat.and_pow_two_sub_one_eq_mod s 30
  norm_num at h
  exact h

end M3

namespace M3

/-- Equivalence of one `next_2bits` call with two `next_bit` calls
for any register value that is nonzero and below `2^32`. -/
theorem next_2bits_eq_next_bit_twice (f : Nat → Nat) (r : BitReader)
    (h0 : r.state ≠ 0) (h32 : r.state < 4294967296) :
    next_2bits f r =
      (((next_bit f r).1 <<< 1) ||| (next_bit f (next_bit f r).2).1,
        (next_bit f (next_bit f r).2).2) := by
  obtain ⟨s, p⟩ := r
  simp only at h0 h32
  by_cases hfast : s % 1073741824 = 0
  · have hcases : s = 1073741824 ∨ s = 2147483648 ∨ s = 3221225472 := by omega
    rcases hcases with hs | hs | hs
    · subst hs
      have a2 : (1073741824:Nat) &&& 1073741824 = 1073741824 := by decide
      simp only [next_2bits, next_bit]
      norm_num [state_mask_30, a2]
      rw [show (1073741824:Nat) <<< 1 % 4294967296 = 2147483648 from by decide]
      simp
    · subst hs
      have a2 : (2147483648:Nat) &&& 1073741824 = 0 := by decide
      simp only [next_2bits, next_bit]
      norm_num [state_mask_30, a2]
      have hword := read_u32_unaligned_lt f p
      set word := read_u32_unaligned f p with hw
      have hor : (word <<< 1) ||| 1 = 2 * word + 1 := by
        rw [Nat.shiftLeft_eq]
        have e : word * 2 ^ 1 = 2 * word := by ring
        rw [e, two_mul_or_one]
      rw [hor]
      have hs1ne : (2 * word + 1) % 4294967296 ≠ 2147483648 := by omega
      rw [if_neg hs1ne]
      dsimp only
      simp only [Prod.mk.injEq, BitReader.mk.injEq]
      refine ⟨?_, ?_, trivial⟩
      · have ha : word >>> 31 < 2 := by
          rw [Nat.shiftRight_eq_div_pow]
          have e31 : (2:Nat) ^ 31 = 2147483648 := by norm_num
          rw [e31]
          omega
        have hb : ((2 * word + 1) % 4294967296) >>> 31 < 2 := by
          rw [Nat.shiftRight_eq_div_pow]
          have e31 : (2:Nat) ^ 31 = 2147483648 := by norm_num
          rw [e31]
          omega
        rw [or_bits _ _ ha hb]
        rw [Nat.shiftRight_eq_div_pow, Nat.shiftRight_eq_div_pow,
          Nat.shiftRight_eq_div_pow]
        have e30 : (2:Nat) ^ 30 = 1073741824 := by norm_num
        have e31 : (2:Nat) ^ 31 = 2147483648 := by norm_num
        simp only [e30, e31]
        omega
      · have hor2 : (word <<< 2) ||| 2 = 4 * word + 2 := by
          rw [Nat.shiftLeft_eq]
          have e : word * 2 ^ 2 = 4 * word := by ring
          rw [e, four_mul_or_two]
        rw [hor2, Nat.shiftLeft_eq]
        have e1 : (2:Nat) ^ 1 = 2 := by norm_num
        rw [e1]
        omega
    · subst hs
      have a2 : (3221225472:Nat) &&& 1073741824 = 1073741824 := by decide
      simp only [next_2bits, next_bit]
      norm_num [state_mask_30, a2]
      rw [show (3221225472:Nat) <<< 1 % 4294967296 = 2147483648 from by decide]
      simp
  · have hcond : s &&& 0x3FFFFFFF ≠ 0 := by
      rw [state_mask_30]
      exact hfast
    have hne : s ≠ 2147483648 := by omega
    simp only [next_2bits, next_bit]
    rw [if_pos hcond, if_neg hne]
    dsimp only
    have hs1ne : (s <<< 1) % 4294967296 ≠ 2147483648 := by
      rw [Nat.shiftLeft_eq]
      have e1 : (2:Nat) ^ 1 = 2 := by norm_num
      rw [e1]
      omega
    rw [if_neg hs1ne]
    dsimp only
    simp only [Prod.mk.injEq, BitReader.mk.injEq]
    refine ⟨?_, ?_, trivial⟩
    · have ha : s >>> 31 < 2 := by
        rw [Nat.shiftRight_eq_div_pow]
        have e31 : (2:Nat) ^ 31 = 2147483648 := by norm_num
        rw [e31]
        omega
      have hb : ((s <<< 1) % 4294967296) >>> 31 < 2 := by
        rw [Nat.shiftRight_eq_div_pow]
        have e31 : (2:Nat) ^ 31 = 2147483648 := by norm_num
        rw [e31]
        omega
      rw [or_bits _ _ ha hb]
      rw [Nat.shiftRight_eq_div_pow, Nat.shiftRight_eq_div_pow,
        Nat.shiftLeft_eq, Nat.shiftRight_eq_div_pow]
      have e30 : (2:Nat) ^ 30 = 1073741824 := by norm_num
      have e31 : (2:Nat) ^ 31 = 2147483648 := by norm_num
      have e1 : (2:Nat) ^ 1 = 2 := by norm_num
      simp only [e30, e31, e1]
      omega
    · rw [Nat.shiftLeft_eq, Nat.shiftLeft_eq, Nat.shiftLeft_eq]
      have e1 : (2:Nat) ^ 1 = 2 := by norm_num
      have e2 : (2:Nat) ^ 2 = 4 := by norm_num
      rw [e1, e2]
      omega


/-- Every reachable reader keeps a nonzero register below `2^32` (the
sentinel bit is always present). -/
theorem reachable_state_bounds (f : Nat → Nat) {r : BitReader}
    (h : Reachable f r) : r.state ≠ 0 ∧ r.state < 4294967296 := by
  induction h with
  | init p => exact ⟨by norm_num, by norm_num⟩
  | step_bit hr ih =>
    obtain ⟨hne, hlt⟩ := ih
    rename_i r'
    obtain ⟨s, p⟩ := r'
    simp only at hne hlt
    rw [next_bit]
    split
    · dsimp only
      have hword := read_u32_unaligned_lt f p
      set word := read_u32_unaligned f p with hw
      have hor : (word <<< 1) ||| 1 = 2 * word + 1 := by
        rw [Nat.shiftLeft_eq]
        have e : word * 2 ^ 1 = 2 * word := by ring
        rw [e, two_mul_or_one]
      rw [hor]
      exact ⟨by omega, by omega⟩
    · dsimp only
      rename_i hcond
      simp only at hcond
      rw [Nat.shiftLeft_eq]
      have e1 : (2:Nat) ^ 1 = 2 := by norm_num
      rw [e1]
      exact ⟨by omega, by omega⟩
  | step_2bits hr ih =>
    obtain ⟨hne, hlt⟩ := ih
    rename_i r'
    obtain ⟨s, p⟩ := r'
    simp only at hne hlt
    rw [next_2bits]
    split
    · dsimp only
      rename_i hcond
      simp only [state_mask_30] at hcond
      rw [Nat.shiftLeft_eq]
      have e2 : (2:Nat) ^ 2 = 4 := by norm_num
      rw [e2]
      exact ⟨by omega, by omega⟩
    · split
      · dsimp only
        have hword := read_u32_unaligned_lt f p
        set word := read_u32_unaligned f p with hw
        have hor : (word <<< 1) ||| 1 = 2 * word + 1 := by
          rw [Nat.shiftLeft_eq]
          have e : word * 2 ^ 1 = 2 * word := by ring
          rw [e, two_mul_or_one]
        rw [hor]
        exact ⟨by omega, by omega⟩
      · dsimp only
        have hword := read_u32_unaligned_lt f p
        set word := read_u32_unaligned f p with hw
        have hor2 : (word <<< 2) ||| 2 = 4 * word + 2 := by
          rw [Nat.shiftLeft_eq]
          have e : word * 2 ^ 2 = 4 * word := by ring
          rw [e, four_mul_or_two]
        rw [hor2]
        exact ⟨by omega, by omega⟩

/-- C3: from every reader state reachable from the initial state
0x80000000 by any sequence of `next_bit`/`next_2bits` calls over any
byte stream, a single `next_2bits` call returns the same 2-bit value
(first bit as the more significant bit) and leaves the reader in the
same state as two consecutive `next_bit` calls. -/
theorem c3_next_2bits_eq_two_next_bit (f : Nat → Nat) (r : BitReader)
    (h : Reachable f r) :
    next_2bits f r =
      (((next_bit f r).1 <<< 1) ||| (next_bit f (next_bit f r).2).1,
        (next_bit f (next_bit f r).2).2) := by
  obtain ⟨h0, h32⟩ := reachable_state_bounds f h
  exact next_2bits_eq_next_bit_twice f r h0 h32

/-- Witness for C3 at the initial reader over the all-zero stream. -/
theorem c3_next_2bits_eq_two_next_bit_witness :
    next_2bits (fun _ => 0) ⟨2147483648, 0⟩ =
      (((next_bit (fun _ => 0) ⟨2147483648, 0⟩).1 <<< 1) |||
          (next_bit (fun _ => 0) (next_bit (fun _ => 0) ⟨2147483648, 0⟩).2).1,
        (next_bit (fun _ => 0) (next_bit (fun _ => 0) ⟨2147483648, 0⟩).2).2) :=
  c3_next_2bits_eq_two_next_bit (fun _ => 0) ⟨2147483648, 0⟩ (Reachable.init 0)

/-!
### Seek/minute bookkeeping (claim C8)
-/

/-- C8 amended: after `gbs_audio_seek_minute m` repositions the
decoder (state as left immediately after the reset, before playback
pre-decoding), `gbs_audio_get_current_minute` reads 0 whenever the
target sample is at or past the end - the code wraps to the beginning
instead of clamping to the last minute - and otherwise reads `m` or
`m - 1` (the sample counter is rounded down to the start of the
containing block, which can fall just below the minute boundary).
The hypotheses say the state is one a successful `gbs_audio_init`
produces: a valid mode, a nonzero rate, a positive whole number of
samples per block not exceeding a minute, consistent totals, and a
seek product that fits in `u32`. -/
theorem c8_amended (st : GbsState) (m : Nat)
    (hmode : st.mode ≠ GBS_MODE_INVALID)
    (hrate : 0 < st.sample_rate)
    (hspb : 0 < seek_samples_per_block st)
    (hspm : seek_samples_per_block st ≤ st.sample_rate * 60)
    (htot : st.total_samples = st.total_blocks * seek_samples_per_block st)
    (hm32 : m * (st.sample_rate * 60) < 4294967296) :
    (st.total_samples ≤ m * (st.sample_rate * 60) →
      gbs_audio_get_current_minute (gbs_audio_seek_minute m st) = 0) ∧
    (m * (st.sample_rate * 60) < st.total_samples →
      (gbs_audio_get_current_minute (gbs_audio_seek_minute m st) = m ∨
        gbs_audio_get_current_minute (gbs_audio_seek_minute m st) + 1 = m)) := by
  have hratene : st.sample_rate ≠ 0 := Nat.pos_iff_ne_zero.mp hrate
  set spm := st.sample_rate * 60 with hspm_def
  clear_value spm
  have hspm0 : 0 < spm := by
    rw [hspm_def]
    positivity
  set spb := seek_samples_per_block st with hspb_def
  clear_value spb
  have hmod : m * spm % 4294967296 = m * spm := Nat.mod_eq_of_lt hm32
  constructor
  · intro hpast
    rw [gbs_audio_seek_minute, if_neg hmode]
    simp only [← hspm_def, ← hspb_def, hmod,
      if_pos (show m * spm ≥ st.total_samples from hpast)]
    simp [gbs_audio_get_current_minute, ← hspm_def, hratene]
  · intro hin
    rw [gbs_audio_seek_minute, if_neg hmode]
    simp only [← hspm_def, ← hspb_def, hmod,
      if_neg (show ¬(m * spm ≥ st.total_samples) from not_le.mpr hin)]
    have htb : m * spm / spb < st.total_blocks := by
      rw [Nat.div_lt_iff_lt_mul hspb]
      calc m * spm < st.total_samples := hin
        _ = st.total_blocks * spb := htot
    rw [if_neg (not_le.mpr htb)]
    simp only [gbs_audio_get_current_minute, ← hspm_def]
    rw [if_neg hratene]
    set q := m * spm / spb with hq_def
    clear_value q
    have hsmall : q * spb ≤ m * spm := by
      rw [hq_def]
      exact Nat.div_mul_le_self _ _
    have hmodlt : q * spb % 4294967296 = q * spb :=
      Nat.mod_eq_of_lt (lt_of_le_of_lt hsmall hm32)
    rw [hmodlt]
    have hlarge : m * spm < q * spb + spb := by
      have h1 := Nat.div_add_mod (m * spm) spb
      have h2 := Nat.mod_lt (m * spm) hspb
      have h3 : q * spb = spb * (m * spm / spb) := by
        rw [hq_def, Nat.mul_comm]
      omega
    have hub : q * spb / spm ≤ m := by
      calc q * spb / spm ≤ m * spm / spm := Nat.div_le_div_right hsmall
        _ = m := Nat.mul_div_cancel m hspm0
    have h1 : m - 1 ≤ q * spb / spm := by
      rcases Nat.eq_zero_or_pos m with hm0 | hmpos
      · rw [hm0]
        exact Nat.zero_le _
      · rw [Nat.le_div_iff_mul_le hspm0]
        have h2 : (m - 1) * spm + spm = m * spm := by
          have h3 : m - 1 + 1 = m := Nat.succ_pred_eq_of_pos hmpos
          calc (m - 1) * spm + spm = (m - 1 + 1) * spm := by ring
            _ = m * spm := by rw [h3]
        omega
    set v := q * spb / spm with hv_def
    clear_value v
    omega

/-- Witness for C8 amended on the concrete two-minute mode-2 state:
seeking to minute 5 (past the end) reads back minute 0, and seeking to
minute 1 reads back 1 or 0. -/
theorem c8_amended_witness :
    gbs_audio_get_current_minute (gbs_audio_seek_minute 5 ex_mode2_state) = 0 ∧
    (gbs_audio_get_current_minute (gbs_audio_seek_minute 1 ex_mode2_state) = 1 ∨
      gbs_audio_get_current_minute (gbs_audio_seek_minute 1 ex_mode2_state) + 1 = 1) :=
  ⟨(c8_amended ex_mode2_state 5 (by decide) (by decide) (by decide) (by decide)
      (by decide) (by decide)).1 (by decide),
   (c8_amended ex_mode2_state 1 (by decide) (by decide) (by decide) (by decide)
      (by decide) (by decide)).2 (by decide)⟩

/-!
### Lookup-table vs reference-formula agreement (claim C5)
-/

/-- If the table entry at the kernel's index equals the reference
formula's signed diff, one decode step agrees exactly (the two kernels
share the clamp structure). -/
theorem decode_ima_4bit_agree_of_diff_eq (n : Nat) (ch : ChannelState)
    (h : ima_diff_table.getD (ch.step_index.toNat * 16 + n) 0 =
      ima_ref_diff ch.step_index.toNat n) :
    decode_ima_4bit n ch = decode_ima_4bit_ref n ch := by
  rw [decode_ima_4bit, decode_ima_4bit_ref, h]

set_option maxRecDepth 16384 in
set_option maxHeartbeats 4000000 in
/-- C5 amended: a one-sample decode through
`ima_diff_table[step_index*16 + n]` agrees with the 4.4.1 reference
formula for every predictor exactly when the table entry at that
`(step_index, n)` equals the formula's signed diff; that happens for
exactly 196 of the 1424 entries, which include every nibble of
step_index 0, nibbles 0 and 8 of every step_index, and the four
further entries at step_indices 4 and 7, nibbles 1 and 9.  Everywhere
else the kernels disagree, first at step_index 1, nibble 1. -/
theorem c5_table_agreement_characterization :
    (∀ (si : Fin 89) (n : Fin 16),
      (∀ p : Int, decode_ima_4bit n.val ⟨p, (si.val : Int)⟩ =
          decode_ima_4bit_ref n.val ⟨p, (si.val : Int)⟩) ↔
        ima_diff_table.getD (si.val * 16 + n.val) 0 = ima_ref_diff si.val n.val) ∧
    count_agree ima_diff_table 0 = 196 ∧
    (∀ n : Fin 16,
      ima_diff_table.getD (0 * 16 + n.val) 0 = ima_ref_diff 0 n.val) ∧
    (∀ si : Fin 89,
      ima_diff_table.getD (si.val * 16 + 0) 0 = ima_ref_diff si.val 0 ∧
      ima_diff_table.getD (si.val * 16 + 8) 0 = ima_ref_diff si.val 8) ∧
    (ima_diff_table.getD (4 * 16 + 1) 0 = ima_ref_diff 4 1 ∧
     ima_diff_table.getD (4 * 16 + 9) 0 = ima_ref_diff 4 9 ∧
     ima_diff_table.getD (7 * 16 + 1) 0 = ima_ref_diff 7 1 ∧
     ima_diff_table.getD (7 * 16 + 9) 0 = ima_ref_diff 7 9) ∧
    ima_diff_table.getD (1 * 16 + 1) 0 ≠ ima_ref_diff 1 1 := by
  refine ⟨?_, by decide, by decide, by decide, by decide, by decide⟩
  intro si n
  constructor
  · intro h
    have h1 := h (-(ima_diff_table.getD (si.val * 16 + n.val) 0))
    simp only [decode_ima_4bit, decode_ima_4bit_ref, Int.toNat_natCast,
      Prod.mk.injEq, ChannelState.mk.injEq] at h1
    split_ifs at h1 <;> omega
  · intro h p
    exact decode_ima_4bit_agree_of_diff_eq n.val ⟨p, (si.val : Int)⟩
      (by rw [Int.toNat_natCast]; exact h)

/-!
### ADPCM state invariants (claim C6)
-/

/-- The `u16` load produces a value below `2^16`. -/
theorem read_u16_unaligned_lt (f : Nat → Nat) (p : Nat) :
    read_u16_unaligned f p < 65536 := by
  have e : (65536 : Nat) = 2 ^ 16 := by norm_num
  rw [read_u16_unaligned, e]
  apply Nat.or_lt_two_pow
  · have h := Nat.mod_lt (f p) (show (0:Nat) < 256 by norm_num)
    omega
  · rw [Nat.shiftLeft_eq]
    have h := Nat.mod_lt (f (p + 1)) (show (0:Nat) < 256 by norm_num)
    have e8 : (2:Nat) ^ 8 = 256 := by norm_num
    rw [e8]
    omega

/-- One 4-bit IMA step lands in the documented ranges from any input
state: the clamps are unconditional. -/
theorem decode_ima_4bit_inRange (n : Nat) (ch : ChannelState) :
    -32768 ≤ (decode_ima_4bit n ch).2.predictor ∧
      (decode_ima_4bit n ch).2.predictor ≤ 32767 ∧
      0 ≤ (decode_ima_4bit n ch).2.step_index ∧
      (decode_ima_4bit n ch).2.step_index ≤ 88 := by
  simp only [decode_ima_4bit]
  split_ifs <;> omega

/-- One 3-bit step lands in the documented ranges from any input
state. -/
theorem decode_adpcm_3bit_inRange (n : Nat) (ch : ChannelState) :
    0 ≤ (decode_adpcm_3bit n ch).2.predictor ∧
      (decode_adpcm_3bit n ch).2.predictor ≤ 65535 ∧
      0 ≤ (decode_adpcm_3bit n ch).2.step_index ∧
      (decode_adpcm_3bit n ch).2.step_index ≤ 88 := by
  simp only [decode_adpcm_3bit]
  split_ifs <;> omega

/-- One 2-bit step preserves the documented ranges (the step-index
update needs the incoming index to be in range). -/
theorem decode_adpcm_2bit_inRange (n : Nat) (ch : ChannelState)
    (h1 : 0 ≤ ch.step_index) (h2 : ch.step_index ≤ 352) :
    0 ≤ (decode_adpcm_2bit n ch).2.predictor ∧
      (decode_adpcm_2bit n ch).2.predictor ≤ 65535 ∧
      0 ≤ (decode_adpcm_2bit n ch).2.step_index ∧
      (decode_adpcm_2bit n ch).2.step_index ≤ 352 := by
  simp only [decode_adpcm_2bit]
  split_ifs <;> omega

/-- The mono block-header reset for mode 2 yields an IMA-range state. -/
theorem parse_mono_mode2_inRange (block : Nat → Nat) :
    -32768 ≤ (parse_block_header_mono block GBS_MODE_MONO_4BIT).predictor ∧
      (parse_block_header_mono block GBS_MODE_MONO_4BIT).predictor ≤ 32767 ∧
      0 ≤ (parse_block_header_mono block GBS_MODE_MONO_4BIT).step_index ∧
      (parse_block_header_mono block GBS_MODE_MONO_4BIT).step_index ≤ 88 := by
  have hp := read_u16_unaligned_lt block 0
  have hs := read_u16_unaligned_lt block 2
  simp only [parse_block_header_mono, GBS_MODE_MONO_4BIT, GBS_MODE_MONO_2BIT,
    GBS_MODE_MONO_2BIT_SM]
  norm_num
  split_ifs <;> omega

/-- The mono block-header reset for mode 1 yields a 3-bit-range state. -/
theorem parse_mono_mode1_inRange (block : Nat → Nat) :
    0 ≤ (parse_block_header_mono block GBS_MODE_MONO_3BIT).predictor ∧
      (parse_block_header_mono block GBS_MODE_MONO_3BIT).predictor ≤ 65535 ∧
      0 ≤ (parse_block_header_mono block GBS_MODE_MONO_3BIT).step_index ∧
      (parse_block_header_mono block GBS_MODE_MONO_3BIT).step_index ≤ 88 := by
  have hp := read_u16_unaligned_lt block 0
  have hs := read_u16_unaligned_lt block 2
  simp only [parse_block_header_mono, GBS_MODE_MONO_4BIT, GBS_MODE_MONO_3BIT,
    GBS_MODE_MONO_2BIT, GBS_MODE_MONO_2BIT_SM]
  norm_num
  split_ifs <;> omega

/-- The mono block-header reset for mode 3 yields a 2-bit-range state. -/
theorem parse_mono_mode3_inRange (block : Nat → Nat) :
    0 ≤ (parse_block_header_mono block GBS_MODE_MONO_2BIT).predictor ∧
      (parse_block_header_mono block GBS_MODE_MONO_2BIT).predictor ≤ 65535 ∧
      0 ≤ (parse_block_header_mono block GBS_MODE_MONO_2BIT).step_index ∧
      (parse_block_header_mono block GBS_MODE_MONO_2BIT).step_index ≤ 352 := by
  have hp := read_u16_unaligned_lt block 0
  have hs := read_u16_unaligned_lt block 2
  simp only [parse_block_header_mono, GBS_MODE_MONO_4BIT, GBS_MODE_MONO_2BIT,
    GBS_MODE_MONO_2BIT_SM]
  norm_num
  split_ifs <;> omega

/-- The stereo block-header reset yields IMA-range left and right
states. -/
theorem parse_stereo_inRange (block : Nat → Nat) :
    (-32768 ≤ (parse_block_header_stereo block).1.predictor ∧
      (parse_block_header_stereo block).1.predictor ≤ 32767 ∧
      0 ≤ (parse_block_header_stereo block).1.step_index ∧
      (parse_block_header_stereo block).1.step_index ≤ 88) ∧
    (-32768 ≤ (parse_block_header_stereo block).2.predictor ∧
      (parse_block_header_stereo block).2.predictor ≤ 32767 ∧
      0 ≤ (parse_block_header_stereo block).2.step_index ∧
      (parse_block_header_stereo block).2.step_index ≤ 88) := by
  have hp0 := read_u16_unaligned_lt block 0
  have hs2 := read_u16_unaligned_lt block 2
  have hp4 := read_u16_unaligned_lt block 4
  have hs6 := read_u16_unaligned_lt block 6
  simp only [parse_block_header_stereo]
  split_ifs <;> omega


/-- Folding a state-preserving kernel over any code list preserves the
invariant. -/
theorem foldl_decode_inv {β : Type} (g : ChannelState → β → ChannelState)
    (P : ChannelState → Prop) (hstep : ∀ ch b, P ch → P (g ch b)) :
    ∀ (l : List β) (ch : ChannelState), P ch → P (l.foldl g ch) := by
  intro l
  induction l with
  | nil => intro ch h; exact h
  | cons b t ih => intro ch h; exact ih _ (hstep _ _ h)

/-- C6: for every mode, starting from any block-header reset and after
any sequence of decoded codes, the step index stays in `[0, 88]` for
the 4-bit IMA and 3-bit kernels and in `[0, 352]` for the 2-bit
kernel, and the predictor stays in `[-32768, 32767]` for 4-bit IMA
and in `[0, 65535]` for the 3-bit and 2-bit kernels. -/
theorem c6_adpcm_state_invariants (block : Nat → Nat)
    (codes4 : List (Fin 16)) (codes3 : List (Fin 8)) (codes2 : List (Fin 4)) :
    (let st := codes4.foldl (fun ch c => (decode_ima_4bit c.val ch).2)
        (parse_block_header_mono block GBS_MODE_MONO_4BIT);
     -32768 ≤ st.predictor ∧ st.predictor ≤ 32767 ∧
       0 ≤ st.step_index ∧ st.step_index ≤ 88) ∧
    (let stl := codes4.foldl (fun ch c => (decode_ima_4bit c.val ch).2)
        (parse_block_header_stereo block).1;
     let str := codes4.foldl (fun ch c => (decode_ima_4bit c.val ch).2)
        (parse_block_header_stereo block).2;
     (-32768 ≤ stl.predictor ∧ stl.predictor ≤ 32767 ∧
       0 ≤ stl.step_index ∧ stl.step_index ≤ 88) ∧
     (-32768 ≤ str.predictor ∧ str.predictor ≤ 32767 ∧
       0 ≤ str.step_index ∧ str.step_index ≤ 88)) ∧
    (let st := codes3.foldl (fun ch c => (decode_adpcm_3bit c.val ch).2)
        (parse_block_header_mono block GBS_MODE_MONO_3BIT);
     0 ≤ st.predictor ∧ st.predictor ≤ 65535 ∧
       0 ≤ st.step_index ∧ st.step_index ≤ 88) ∧
    (let st := codes2.foldl (fun ch c => (decode_adpcm_2bit c.val ch).2)
        (parse_block_header_mono block GBS_MODE_MONO_2BIT);
     0 ≤ st.predictor ∧ st.predictor ≤ 65535 ∧
       0 ≤ st.step_index ∧ st.step_index ≤ 352) := by
  refine ⟨?_, ⟨?_, ?_⟩, ?_, ?_⟩
  · exact foldl_decode_inv _
      (fun st => -32768 ≤ st.predictor ∧ st.predictor ≤ 32767 ∧
        0 ≤ st.step_index ∧ st.step_index ≤ 88)
      (fun ch b _ => decode_ima_4bit_inRange b.val ch)
      codes4 _ (parse_mono_mode2_inRange block)
  · exact foldl_decode_inv _
      (fun st => -32768 ≤ st.predictor ∧ st.predictor ≤ 32767 ∧
        0 ≤ st.step_index ∧ st.step_index ≤ 88)
      (fun ch b _ => decode_ima_4bit_inRange b.val ch)
      codes4 _ (parse_stereo_inRange block).1
  · exact foldl_decode_inv _
      (fun st => -32768 ≤ st.predictor ∧ st.predictor ≤ 32767 ∧
        0 ≤ st.step_index ∧ st.step_index ≤ 88)
      (fun ch b _ => decode_ima_4bit_inRange b.val ch)
      codes4 _ (parse_stereo_inRange block).2
  · exact foldl_decode_inv _
      (fun st => 0 ≤ st.predictor ∧ st.predictor ≤ 65535 ∧
        0 ≤ st.step_index ∧ st.step_index ≤ 88)
      (fun ch b _ => decode_adpcm_3bit_inRange b.val ch)
      codes3 _ (parse_mono_mode1_inRange block)
  · exact foldl_decode_inv _
      (fun st => 0 ≤ st.predictor ∧ st.predictor ≤ 65535 ∧
        0 ≤ st.step_index ∧ st.step_index ≤ 352)
      (fun ch b h => decode_adpcm_2bit_inRange b.val ch h.2.2.1 h.2.2.2)
      codes2 _ (parse_mono_mode3_inRange block)

end M3
